import Mathlib

/-!
Shallow embedding of the COAVerse student-level prediction service
(src/backend/ml/app.py) and proofs of its specified properties.

The service is a single FastAPI handler `predict_level` that reads four
fields from an untyped JSON payload, coerces them with Python `float` /
`int`, encodes the topic through a fitted label encoder, calls a trained
classifier on a single-row batch, decodes the predicted class id, and
wraps the result; every exception inside the `try` block is converted to
an HTTP 400 whose detail is `str(e)`.

Modelling choices:
* JSON scalar values are `JVal`; Python floats are modelled as rationals
  (`Rat`), which is exact for every literal the claims mention.
* Python `float(x)` / `int(x)` become `pyFloat` / `pyInt`, including the
  string-literal parsers (optional surrounding whitespace, optional sign,
  decimal digits, and for floats an optional fraction and exponent) and
  the truncation toward zero that `int` applies to a float argument.
* The three artifacts (classifier, topic encoder, level encoder) are a
  record `Artifacts`; the classifier is an abstract per-row function,
  applied row-wise to a batch as sklearn `predict` is, and the two label
  encoders are their `classes_` lists, with `transform` mapping a label
  to its index (error outside the closed vocabulary, as sklearn raises)
  and `inverse_transform` indexing into the class list (error outside
  the id range).
* Exceptions become the `PyErr` sum; `PyErr.toStr` is `str(e)`.
-/

/-- One quote character, used to build Python error messages. -/
def quoteChar : Char := Char.ofNat 39

/-- One-character string holding `quoteChar`. -/
def quoteStr : String := String.mk [quoteChar]

instance {ε α : Type} [DecidableEq ε] [DecidableEq α] : DecidableEq (Except ε α) :=
  fun a b =>
    match a, b with
    | .ok x, .ok y => decidable_of_iff (x = y) (by simp)
    | .error x, .error y => decidable_of_iff (x = y) (by simp)
    | .ok _, .error _ => isFalse (by simp)
    | .error _, .ok _ => isFalse (by simp)

/-- Scalar JSON values as they arrive in the request payload dict. -/
inductive JVal where
  | vStr (s : String)
  | vInt (n : Int)
  | vFloat (q : Rat)
  | vBool (b : Bool)
  | vNull
deriving DecidableEq

/-- Python exceptions that the handler body can raise. -/
inductive PyErr where
  | keyError (key : String)
  | valueError (msg : String)
  | typeError (msg : String)
  | indexError (msg : String)
deriving DecidableEq

/-- Python `str(e)`: a `KeyError` prints as the quoted key, the others
print their message. -/
def PyErr.toStr : PyErr → String
  | .keyError k => quoteStr ++ k ++ quoteStr
  | .valueError m => m
  | .typeError m => m
  | .indexError m => m

/-- Numeric value of a list of decimal digit characters. -/
def digitsVal (cs : List Char) : Nat :=
  cs.foldl (fun a c => 10 * a + (c.toNat - 48)) 0

/-- Consume an optional leading sign; `true` means nonnegative. -/
def readSign : List Char → Bool × List Char
  | '+' :: cs => (true, cs)
  | '-' :: cs => (false, cs)
  | cs => (true, cs)

/-- Apply a sign flag to a natural number. -/
def applySign (pos : Bool) (n : Nat) : Int :=
  if pos then (n : Int) else -(n : Int)

/-- Strip leading and trailing whitespace, as Python number parsing does. -/
def trimChars (cs : List Char) : List Char :=
  ((cs.dropWhile Char.isWhitespace).reverse.dropWhile Char.isWhitespace).reverse

/-- Python `int(s)` on an already trimmed character list: optional sign
followed by a nonempty run of decimal digits. -/
def parseIntChars (cs : List Char) : Option Int :=
  let (pos, ds) := readSign cs
  if !ds.isEmpty && ds.all Char.isDigit then some (applySign pos (digitsVal ds))
  else none

/-- Python `int(s)` for a string argument. -/
def parseIntStr (s : String) : Option Int :=
  parseIntChars (trimChars s.data)

/-- Optional exponent part of a float literal: empty, or `e`/`E`, an
optional sign and a nonempty digit run. -/
def parseExpChars : List Char → Option Int
  | [] => some 0
  | c :: cs =>
    if c == 'e' || c == 'E' then
      let (pos, ds) := readSign cs
      if !ds.isEmpty && ds.all Char.isDigit then some (applySign pos (digitsVal ds))
      else none
    else none

/-- Build the rational value of a float literal from its sign, integer
part, fraction part and remaining (exponent) characters. -/
def mkFloat (pos : Bool) (ip fp rest : List Char) : Option Rat :=
  if ip.isEmpty && fp.isEmpty then none
  else
    match parseExpChars rest with
    | none => none
    | some e =>
      let m : Nat := digitsVal (ip ++ fp)
      let k : Int := (fp.length : Int)
      some (if k ≤ e then mkRat (applySign pos (m * 10 ^ (e - k).toNat)) 1
            else mkRat (applySign pos m) (10 ^ (k - e).toNat))

/-- Python `float(s)` on an already trimmed character list: optional
sign, digits with an optional fraction, optional exponent. -/
def parseFloatChars (cs : List Char) : Option Rat :=
  let (pos, rest) := readSign cs
  let (ip, rest1) := rest.span Char.isDigit
  match rest1 with
  | '.' :: r =>
    let (fp, rest2) := r.span Char.isDigit
    mkFloat pos ip fp rest2
  | _ => mkFloat pos ip [] rest1

/-- Python `float(s)` for a string argument. -/
def parseFloatStr (s : String) : Option Rat :=
  parseFloatChars (trimChars s.data)

/-- Python `float(x)`: floats pass through, ints and bools are widened,
strings are parsed, `None` raises `TypeError`. -/
def pyFloat : JVal → Except PyErr Rat
  | .vFloat q => .ok q
  | .vInt n => .ok (n : Rat)
  | .vBool b => .ok (if b then 1 else 0)
  | .vStr s =>
    match parseFloatStr s with
    | some q => .ok q
    | none =>
      .error (.valueError
        ("could not convert string to float: " ++ quoteStr ++ s ++ quoteStr))
  | .vNull =>
    .error (.typeError "float argument must be a string or a real number, not NoneType")

/-- Truncation toward zero of a rational, the behaviour of Python
`int` on a float argument. -/
def ratTrunc (q : Rat) : Int :=
  Int.tdiv q.num (q.den : Int)

/-- Python `int(x)`: ints pass through, floats truncate toward zero,
bools widen, strings must be integer literals, `None` raises. -/
def pyInt : JVal → Except PyErr Int
  | .vInt n => .ok n
  | .vFloat q => .ok (ratTrunc q)
  | .vBool b => .ok (if b then 1 else 0)
  | .vStr s =>
    match parseIntStr s with
    | some n => .ok n
    | none =>
      .error (.valueError
        ("invalid literal for int with base 10: " ++ quoteStr ++ s ++ quoteStr))
  | .vNull =>
    .error (.typeError "int argument must be a string or a real number, not NoneType")

/-- The request payload: a JSON object, i.e. a finite map from keys to
scalar values, modelled as an association list with first-key-wins
lookup. -/
def Payload : Type := List (String × JVal)

/-- Python `data[k]`: the value under `k`, or `KeyError(k)`. -/
def dataGet (data : Payload) (k : String) : Except PyErr JVal :=
  match data.find? (fun p => p.1 == k) with
  | some p => .ok p.2
  | none => .error (.keyError k)

/-- Line 16/17 of app.py: `float(data[k])`. -/
def getFloat (data : Payload) (k : String) : Except PyErr Rat :=
  match dataGet data k with
  | .error e => .error e
  | .ok v => pyFloat v

/-- Line 18 of app.py: `int(data[k])`. -/
def getInt (data : Payload) (k : String) : Except PyErr Int :=
  match dataGet data k with
  | .error e => .error e
  | .ok v => pyInt v

/-- LabelEncoder `transform` on one element: the index of the label in
the trained class list, `ValueError` outside the closed vocabulary, and
a `TypeError` for a non-string input against string classes. -/
def transformOne (classes : List String) (v : JVal) : Except PyErr Nat :=
  match v with
  | .vStr s =>
    if s ∈ classes then .ok (classes.findIdx (fun c => c == s))
    else
      .error (.valueError
        ("y contains previously unseen labels: [" ++ quoteStr ++ s ++ quoteStr ++ "]"))
  | _ => .error (.typeError "argument must be a string label")

/-- `topic_encoder.transform(ys)`: elementwise encoding of a list of
labels, failing on the first bad element. -/
def topic_transform (classes : List String) : List JVal → Except PyErr (List Nat)
  | [] => .ok []
  | v :: vs =>
    match transformOne classes v with
    | .error e => .error e
    | .ok i =>
      match topic_transform classes vs with
      | .error e => .error e
      | .ok is => .ok (i :: is)

/-- LabelEncoder `inverse_transform` on one class id: the label stored
at that index, `ValueError` when the id is outside the trained range. -/
def decodeClass (classes : List String) (y : Int) : Except PyErr String :=
  if h : 0 ≤ y ∧ y.toNat < classes.length then .ok (classes.get ⟨y.toNat, h.2⟩)
  else .error (.valueError "y contains previously unseen labels")

/-- `level_encoder.inverse_transform(ys)`: elementwise decoding. -/
def inverse_transform (classes : List String) : List Int → Except PyErr (List String)
  | [] => .ok []
  | y :: ys =>
    match decodeClass classes y with
    | .error e => .error e
    | .ok s =>
      match inverse_transform classes ys with
      | .error e => .error e
      | .ok ss => .ok (s :: ss)

/-- Python `xs[0]`: the first element, or `IndexError` on an empty
sequence. -/
def index0 {α : Type} : List α → Except PyErr α
  | [] => .error (.indexError "index 0 is out of bounds")
  | x :: _ => .ok x

/-- The three artifacts loaded at startup (app.py lines 8 to 10): the
classifier as an abstract function from one feature row to a class id,
and the two label encoders as their trained class lists. -/
structure Artifacts where
  modelRow : List Rat → Int
  topic_classes : List String
  level_classes : List String

/-- sklearn `model.predict(X)`: one predicted class id per input row. -/
def modelPredict (A : Artifacts) (X : List (List Rat)) : List Int :=
  X.map A.modelRow

/-- Line 22 of app.py: `np.array([[...]])`, a single-row batch. -/
def buildBatch (row : List Rat) : List (List Rat) :=
  [row]

/-- Lines 15 to 22 of app.py (the spec feature assembler): read the
four fields in source order, coerce them, encode the topic, and build
the feature row `[accuracy, avg_time, attempts, topic_encoded]`. -/
def assembleFeatures (classes : List String) (data : Payload) : Except PyErr (List Rat) :=
  match dataGet data "topic" with
  | .error e => .error e
  | .ok topic =>
    match getFloat data "accuracy_percent" with
    | .error e => .error e
    | .ok accuracy =>
      match getFloat data "avg_time_seconds" with
      | .error e => .error e
      | .ok avg_time =>
        match getInt data "attempts" with
        | .error e => .error e
        | .ok attempts =>
          match topic_transform classes [topic] with
          | .error e => .error e
          | .ok encs =>
            match index0 encs with
            | .error e => .error e
            | .ok topic_encoded =>
              .ok [accuracy, avg_time, (attempts : Rat), (topic_encoded : Rat)]

/-- The body of the `try` block: assemble features, predict on the
single-row batch, decode the one prediction, return the level string. -/
def runPredict (A : Artifacts) (data : Payload) : Except PyErr String :=
  match assembleFeatures A.topic_classes data with
  | .error e => .error e
  | .ok row =>
    match inverse_transform A.level_classes (modelPredict A (buildBatch row)) with
    | .error e => .error e
    | .ok levels =>
      match index0 levels with
      | .error e => .error e
      | .ok level => .ok level

/-- Success body `{"predicted_level": level}`. -/
structure PredictionResponse where
  predicted_level : String
deriving DecidableEq

/-- What the caller of POST /predict receives: a 200 with a prediction
body, or an HTTPException status and detail. -/
inductive Response where
  | ok (body : PredictionResponse)
  | err (status : Nat) (detail : String)
deriving DecidableEq

/-- HTTP status of a response; a successful JSON return is a 200. -/
def Response.status : Response → Nat
  | .ok _ => 200
  | .err s _ => s

/-- The whole handler `predict_level` (app.py lines 12 to 30): run the
`try` body, and turn any exception into `HTTPException(400, str(e))`. -/
def predict_level (A : Artifacts) (data : Payload) : Response :=
  match runPredict A data with
  | .ok level => .ok ⟨level⟩
  | .error e => .err 400 (PyErr.toStr e)

/-- The four keys the handler reads, in source order. -/
def requiredKeys : List String :=
  ["topic", "accuracy_percent", "avg_time_seconds", "attempts"]

/-- Substring occurrence test on character lists. -/
def occursIn (needle : List Char) : List Char → Bool
  | [] => needle.isEmpty
  | c :: t => needle.isPrefixOf (c :: t) || occursIn needle t

/-- Substring occurrence test on strings: `needle` occurs in `hay`. -/
def strOccursIn (needle hay : String) : Bool :=
  occursIn needle.data hay.data

/-- Python `k in data`. -/
def hasKey (data : Payload) (k : String) : Bool :=
  (data.find? (fun p => p.1 == k)).isSome

/-- All required fields other than `k` are present and coerce, so the
evaluation of app.py lines 15 to 18 reaches the read of key `k`. -/
def othersPresentOk (data : Payload) (k : String) : Prop :=
  (k ≠ "topic" → ∃ v, dataGet data "topic" = Except.ok v) ∧
  (k ≠ "accuracy_percent" → ∃ q, getFloat data "accuracy_percent" = Except.ok q) ∧
  (k ≠ "avg_time_seconds" → ∃ q, getFloat data "avg_time_seconds" = Except.ok q) ∧
  (k ≠ "attempts" → ∃ n, getInt data "attempts" = Except.ok n)

/-- One request handled against the process-wide artifacts: the handler
returns a response and leaves the loaded artifacts untouched, since the
source never reassigns the module globals. -/
def handleRequest (A : Artifacts) (data : Payload) : Response × Artifacts :=
  (predict_level A data, A)

/-- A server run: `handleRequest` folded over a request list, threading
the process-wide state from call to call. -/
def runServer (A : Artifacts) : List Payload → List Response × Artifacts
  | [] => ([], A)
  | d :: ds =>
    let st := handleRequest A d
    let rest := runServer st.2 ds
    (st.1 :: rest.1, rest.2)

/-- Outcome of deserializing the three artifact files (app.py lines 8
to 10): each `joblib.load` either yields its object or raises with a
message. -/
structure ArtifactFiles where
  model_file : Except String (List Rat → Int)
  topic_file : Except String (List String)
  level_file : Except String (List String)

/-- Module initialization: the three loads run in source order when the
module is imported; the first failure aborts startup, because an uncaught
exception at module load kills the process before the route is served. -/
def startup (F : ArtifactFiles) : Except String Artifacts :=
  match F.model_file with
  | .error m => .error m
  | .ok mo =>
    match F.topic_file with
    | .error m => .error m
    | .ok tc =>
      match F.level_file with
      | .error m => .error m
      | .ok lc => .ok ⟨mo, tc, lc⟩

/-- Whole-process behaviour: requests are answered only when startup
succeeded; a failed startup serves nothing at all. -/
def serve (F : ArtifactFiles) (reqs : List Payload) : Except String (List Response) :=
  match startup F with
  | .error m => .error m
  | .ok A => .ok (reqs.map (predict_level A))

/-! Concrete inputs used by the witness theorems. -/

/-- A concrete stand-in classifier: every row predicts class id 1. -/
def demoModel : List Rat → Int := fun _ => 1

/-- Concrete artifacts with a two-topic and three-level vocabulary. -/
def demoArtifacts : Artifacts :=
  ⟨demoModel, ["algebra", "geometry"], ["advanced", "beginner", "intermediate"]⟩

/-- The valid payload of spec scenario 1. -/
def demoPayload : Payload :=
  [("topic", .vStr "algebra"), ("accuracy_percent", .vInt 85),
   ("avg_time_seconds", .vFloat (mkRat 25 2)), ("attempts", .vInt 2)]

/-- Scenario 2: the same payload with the `attempts` key absent. -/
def missingAttempts : Payload :=
  [("topic", .vStr "algebra"), ("accuracy_percent", .vInt 85),
   ("avg_time_seconds", .vFloat (mkRat 25 2))]

/-- Scenario 4: `accuracy_percent` present but not numeric. -/
def badAccuracy : Payload :=
  [("topic", .vStr "algebra"), ("accuracy_percent", .vStr "not-a-number"),
   ("avg_time_seconds", .vFloat (mkRat 25 2)), ("attempts", .vInt 2)]

/-- Scenario 3: a topic outside the trained vocabulary. -/
def unknownTopic : Payload :=
  [("topic", .vStr "quantum_foo"), ("accuracy_percent", .vInt 85),
   ("avg_time_seconds", .vFloat (mkRat 25 2)), ("attempts", .vInt 2)]

/-- A payload whose `attempts` is the float 2.9. -/
def fracAttempts : Payload :=
  [("topic", .vStr "algebra"), ("accuracy_percent", .vInt 85),
   ("avg_time_seconds", .vFloat (mkRat 25 2)), ("attempts", .vFloat (mkRat 29 10))]

/-- A payload whose `attempts` is the string "2.9". -/
def strFracAttempts : Payload :=
  [("topic", .vStr "algebra"), ("accuracy_percent", .vInt 85),
   ("avg_time_seconds", .vFloat (mkRat 25 2)), ("attempts", .vStr "2.9")]

/-- Strings that coerce: accuracy and attempts given as numeric strings. -/
def stringyPayload : Payload :=
  [("topic", .vStr "algebra"), ("accuracy_percent", .vStr "85"),
   ("avg_time_seconds", .vFloat (mkRat 25 2)), ("attempts", .vStr "2")]

/-- A failed model load next to two good encoder loads. -/
def failFiles : ArtifactFiles :=
  ⟨Except.error "could not load coa_model.pkl",
   Except.ok ["algebra", "geometry"],
   Except.ok ["advanced", "beginner", "intermediate"]⟩

/-! Helper lemmas about the pipeline. -/

theorem predict_level_of_run_ok (A : Artifacts) (data : Payload) (l : String)
    (h : runPredict A data = Except.ok l) : predict_level A data = Response.ok ⟨l⟩ := by
  simp [predict_level, h]

theorem predict_level_of_run_error (A : Artifacts) (data : Payload) (e : PyErr)
    (h : runPredict A data = Except.error e) :
    predict_level A data = Response.err 400 (PyErr.toStr e) := by
  simp [predict_level, h]

theorem decodeClass_ok (classes : List String) (y : Int)
    (h1 : 0 ≤ y) (h2 : y.toNat < classes.length) :
    decodeClass classes y = Except.ok (classes.get ⟨y.toNat, h2⟩) := by
  unfold decodeClass
  rw [dif_pos ⟨h1, h2⟩]

theorem transformOne_ok_of (classes : List String) (s : String) (h : s ∈ classes) :
    transformOne classes (JVal.vStr s) = Except.ok (classes.findIdx (fun c => c == s)) := by
  simp [transformOne, h]

theorem topic_transform_singleton_ok_inv (classes : List String) (v : JVal) (is : List Nat)
    (h : topic_transform classes [v] = Except.ok is) :
    ∃ s, v = JVal.vStr s ∧ s ∈ classes ∧ is = [classes.findIdx (fun c => c == s)] := by
  cases v with
  | vStr s =>
    by_cases hs : s ∈ classes
    · refine ⟨s, rfl, hs, ?_⟩
      simp [topic_transform, transformOne, hs] at h
      exact h.symm
    · simp [topic_transform, transformOne, hs] at h
  | vInt n => simp [topic_transform, transformOne] at h
  | vFloat q => simp [topic_transform, transformOne] at h
  | vBool b => simp [topic_transform, transformOne] at h
  | vNull => simp [topic_transform, transformOne] at h

theorem getFloat_ok_inv (data : Payload) (k : String) (q : Rat)
    (h : getFloat data k = Except.ok q) :
    ∃ v, dataGet data k = Except.ok v ∧ pyFloat v = Except.ok q := by
  unfold getFloat at h
  split at h
  · exact absurd h (by simp)
  · next v hv => exact ⟨v, hv, h⟩

theorem getInt_ok_inv (data : Payload) (k : String) (n : Int)
    (h : getInt data k = Except.ok n) :
    ∃ v, dataGet data k = Except.ok v ∧ pyInt v = Except.ok n := by
  unfold getInt at h
  split at h
  · exact absurd h (by simp)
  · next v hv => exact ⟨v, hv, h⟩

theorem assembleFeatures_ok_inv (classes : List String) (data : Payload) (row : List Rat)
    (h : assembleFeatures classes data = Except.ok row) :
    ∃ s qa qt n,
      dataGet data "topic" = Except.ok (JVal.vStr s) ∧ s ∈ classes ∧
      getFloat data "accuracy_percent" = Except.ok qa ∧
      getFloat data "avg_time_seconds" = Except.ok qt ∧
      getInt data "attempts" = Except.ok n ∧
      row = [qa, qt, (n : Rat), ((classes.findIdx (fun c => c == s) : Nat) : Rat)] := by
  unfold assembleFeatures at h
  split at h
  · exact absurd h (by simp)
  next topic htopic =>
  split at h
  · exact absurd h (by simp)
  next qa hqa =>
  split at h
  · exact absurd h (by simp)
  next qt hqt =>
  split at h
  · exact absurd h (by simp)
  next n hn =>
  split at h
  · exact absurd h (by simp)
  next encs hencs =>
  split at h
  · exact absurd h (by simp)
  next enc henc =>
  obtain ⟨s, rfl, hs, rfl⟩ := topic_transform_singleton_ok_inv classes topic encs hencs
  simp [index0] at henc
  refine ⟨s, qa, qt, n, htopic, hs, hqa, hqt, hn, ?_⟩
  simp at h
  rw [← h, ← henc]

theorem assembleFeatures_ok_of (classes : List String) (data : Payload) (s : String)
    (va vt vn : JVal) (qa qt : Rat) (n : Int)
    (h1 : dataGet data "topic" = Except.ok (JVal.vStr s)) (h2 : s ∈ classes)
    (h3 : dataGet data "accuracy_percent" = Except.ok va) (h4 : pyFloat va = Except.ok qa)
    (h5 : dataGet data "avg_time_seconds" = Except.ok vt) (h6 : pyFloat vt = Except.ok qt)
    (h7 : dataGet data "attempts" = Except.ok vn) (h8 : pyInt vn = Except.ok n) :
    assembleFeatures classes data =
      Except.ok [qa, qt, (n : Rat), ((classes.findIdx (fun c => c == s) : Nat) : Rat)] := by
  unfold assembleFeatures getFloat getInt
  rw [h1, h3, h5, h7]
  simp [h4, h6, h8, topic_transform, transformOne, h2, index0]

theorem runPredict_ok_of (A : Artifacts) (data : Payload) (row : List Rat)
    (hrow : assembleFeatures A.topic_classes data = Except.ok row)
    (hr : 0 ≤ A.modelRow row) (hlt : (A.modelRow row).toNat < A.level_classes.length) :
    runPredict A data = Except.ok (A.level_classes.get ⟨(A.modelRow row).toNat, hlt⟩) := by
  unfold runPredict
  rw [hrow]
  simp [modelPredict, buildBatch, inverse_transform, decodeClass_ok _ _ hr hlt, index0]

theorem runPredict_ok_inv (A : Artifacts) (data : Payload) (l : String)
    (h : runPredict A data = Except.ok l) :
    ∃ row, assembleFeatures A.topic_classes data = Except.ok row := by
  unfold runPredict at h
  split at h
  · exact absurd h (by simp)
  next row hrow => exact ⟨row, hrow⟩

theorem predict_level_ok_inv (A : Artifacts) (data : Payload) (b : PredictionResponse)
    (h : predict_level A data = Response.ok b) :
    ∃ l, runPredict A data = Except.ok l ∧ b = ⟨l⟩ := by
  unfold predict_level at h
  split at h
  · next l hl => exact ⟨l, hl, by simpa using h.symm⟩
  · exact absurd h (by simp)

theorem predict_level_total (A : Artifacts) (data : Payload) :
    (∃ b, predict_level A data = Response.ok b) ∨
    (∃ e : PyErr, predict_level A data = Response.err 400 (PyErr.toStr e)) := by
  cases h : runPredict A data with
  | ok l => exact Or.inl ⟨⟨l⟩, predict_level_of_run_ok A data l h⟩
  | error e => exact Or.inr ⟨e, predict_level_of_run_error A data e h⟩

theorem dataGet_missing (data : Payload) (k : String) (h : hasKey data k = false) :
    dataGet data k = Except.error (PyErr.keyError k) := by
  unfold hasKey at h
  unfold dataGet
  cases hf : data.find? (fun p => p.1 == k) with
  | none => rfl
  | some p => rw [hf] at h; simp at h

theorem assemble_ok_key (classes : List String) (data : Payload) (row : List Rat)
    (h : assembleFeatures classes data = Except.ok row)
    (k : String) (hk : k ∈ requiredKeys) :
    ∃ v, dataGet data k = Except.ok v := by
  obtain ⟨s, qa, qt, n, h1, _, h3, h5, h7, _⟩ := assembleFeatures_ok_inv classes data row h
  obtain ⟨va, hva, _⟩ := getFloat_ok_inv data "accuracy_percent" qa h3
  obtain ⟨vt, hvt, _⟩ := getFloat_ok_inv data "avg_time_seconds" qt h5
  obtain ⟨vn, hvn, _⟩ := getInt_ok_inv data "attempts" n h7
  simp [requiredKeys] at hk
  rcases hk with rfl | rfl | rfl | rfl
  exacts [⟨_, h1⟩, ⟨_, hva⟩, ⟨_, hvt⟩, ⟨_, hvn⟩]

theorem predict_err_of_no_ok (A : Artifacts) (data : Payload)
    (h : ∀ b, predict_level A data ≠ Response.ok b) :
    ∃ d, predict_level A data = Response.err 400 d ∧
      (predict_level A data).status = 400 := by
  rcases predict_level_total A data with ⟨b, hb⟩ | ⟨e, he⟩
  · exact absurd hb (h b)
  · exact ⟨_, he, by simp [he, Response.status]⟩

theorem except_isOk_iff {ε α : Type} (x : Except ε α) :
    x.isOk = true ↔ ∃ a, x = Except.ok a := by
  cases x <;> simp [Except.isOk, Except.toBool]

theorem runServer_state (A : Artifacts) (ps : List Payload) : (runServer A ps).2 = A := by
  induction ps generalizing A with
  | nil => rfl
  | cons d ds ih => simpa [runServer, handleRequest] using ih A

/-! Claim theorems. -/

/-- C1: for every payload in which all four keys topic, accuracy_percent,
avg_time_seconds, attempts are present, the two accuracy/time values
coerce to floats, attempts coerces to an integer, and topic is in the
TopicEncoder vocabulary, the /predict endpoint returns status 200 with a
body whose predicted_level is one of the labels in the LevelEncoder
trained vocabulary. Hypotheses h9 and h10 are the serving contract of
spec section 6: the classifier emits a class id inside the level encoder
range. -/
theorem spec_c1 (A : Artifacts) (data : Payload) (s : String)
    (va vt vn : JVal) (qa qt : Rat) (n : Int)
    (h1 : dataGet data "topic" = Except.ok (JVal.vStr s)) (h2 : s ∈ A.topic_classes)
    (h3 : dataGet data "accuracy_percent" = Except.ok va) (h4 : pyFloat va = Except.ok qa)
    (h5 : dataGet data "avg_time_seconds" = Except.ok vt) (h6 : pyFloat vt = Except.ok qt)
    (h7 : dataGet data "attempts" = Except.ok vn) (h8 : pyInt vn = Except.ok n)
    (h9 : 0 ≤ A.modelRow
      [qa, qt, (n : Rat), ((A.topic_classes.findIdx (fun c => c == s) : Nat) : Rat)])
    (h10 : (A.modelRow
      [qa, qt, (n : Rat), ((A.topic_classes.findIdx (fun c => c == s) : Nat) : Rat)]).toNat <
      A.level_classes.length) :
    ∃ lvl, predict_level A data = Response.ok ⟨lvl⟩ ∧ lvl ∈ A.level_classes ∧
      (predict_level A data).status = 200 := by
  have hrow := assembleFeatures_ok_of A.topic_classes data s va vt vn qa qt n
    h1 h2 h3 h4 h5 h6 h7 h8
  have hrun := runPredict_ok_of A data _ hrow h9 h10
  have hp := predict_level_of_run_ok A data _ hrun
  exact ⟨_, hp, List.get_mem _ _ _, by simp [hp, Response.status]⟩

/-- Witness for C1 at the concrete demo artifacts and scenario-1 payload. -/
theorem spec_c1_witness :
    ∃ lvl, predict_level demoArtifacts demoPayload = Response.ok ⟨lvl⟩ ∧
      lvl ∈ demoArtifacts.level_classes ∧
      (predict_level demoArtifacts demoPayload).status = 200 :=
  spec_c1 demoArtifacts demoPayload "algebra" (JVal.vInt 85) (JVal.vFloat (mkRat 25 2))
    (JVal.vInt 2) 85 (mkRat 25 2) 2 (by decide) (by decide) (by decide) (by decide)
    (by decide) (by decide) (by decide) (by decide) (by decide) (by decide)

/-- C2: every call on every payload yields either a 200 success or a 400
error whose detail is the textual description of the exception that the
pipeline raised; no other status can come out of this logic. -/
theorem spec_c2 (A : Artifacts) (data : Payload) :
    (∃ lvl, predict_level A data = Response.ok ⟨lvl⟩ ∧
      (predict_level A data).status = 200) ∨
    (∃ e : PyErr, predict_level A data = Response.err 400 (PyErr.toStr e) ∧
      (predict_level A data).status = 400) := by
  rcases predict_level_total A data with ⟨⟨l⟩, hb⟩ | ⟨e, he⟩
  · exact Or.inl ⟨l, hb, by simp [hb, Response.status]⟩
  · exact Or.inr ⟨e, he, by simp [he, Response.status]⟩

/-- C6: for every valid payload the feature row is assembled in exactly
the order accuracy, avg_time_seconds, attempts, topic_encoded, it is
passed as a single-row batch, the classifier produces exactly one
prediction for that batch, and the response wraps the LevelEncoder
decoding of that prediction. -/
theorem spec_c6 (A : Artifacts) (data : Payload) (s : String)
    (va vt vn : JVal) (qa qt : Rat) (n : Int) (row : List Rat)
    (hrow : row = [qa, qt, (n : Rat),
      ((A.topic_classes.findIdx (fun c => c == s) : Nat) : Rat)])
    (h1 : dataGet data "topic" = Except.ok (JVal.vStr s)) (h2 : s ∈ A.topic_classes)
    (h3 : dataGet data "accuracy_percent" = Except.ok va) (h4 : pyFloat va = Except.ok qa)
    (h5 : dataGet data "avg_time_seconds" = Except.ok vt) (h6 : pyFloat vt = Except.ok qt)
    (h7 : dataGet data "attempts" = Except.ok vn) (h8 : pyInt vn = Except.ok n)
    (h9 : 0 ≤ A.modelRow row)
    (h10 : (A.modelRow row).toNat < A.level_classes.length) :
    assembleFeatures A.topic_classes data = Except.ok row ∧
    buildBatch row = [row] ∧
    (modelPredict A (buildBatch row)).length = 1 ∧
    predict_level A data =
      Response.ok ⟨A.level_classes.get ⟨(A.modelRow row).toNat, h10⟩⟩ := by
  subst hrow
  have hrowe := assembleFeatures_ok_of A.topic_classes data s va vt vn qa qt n
    h1 h2 h3 h4 h5 h6 h7 h8
  exact ⟨hrowe, rfl, rfl,
    predict_level_of_run_ok A data _ (runPredict_ok_of A data _ hrowe h9 h10)⟩

/-- Witness for C6 at the demo artifacts and scenario-1 payload. -/
theorem spec_c6_witness :
    assembleFeatures demoArtifacts.topic_classes demoPayload =
      Except.ok [85, mkRat 25 2, ((2 : Int) : Rat), ((0 : Nat) : Rat)] ∧
    buildBatch [85, mkRat 25 2, ((2 : Int) : Rat), ((0 : Nat) : Rat)] =
      [[85, mkRat 25 2, ((2 : Int) : Rat), ((0 : Nat) : Rat)]] ∧
    (modelPredict demoArtifacts
      (buildBatch [85, mkRat 25 2, ((2 : Int) : Rat), ((0 : Nat) : Rat)])).length = 1 ∧
    predict_level demoArtifacts demoPayload =
      Response.ok ⟨demoArtifacts.level_classes.get
        ⟨(demoArtifacts.modelRow
            [85, mkRat 25 2, ((2 : Int) : Rat), ((0 : Nat) : Rat)]).toNat, by decide⟩⟩ :=
  spec_c6 demoArtifacts demoPayload "algebra" (JVal.vInt 85) (JVal.vFloat (mkRat 25 2))
    (JVal.vInt 2) 85 (mkRat 25 2) 2
    [85, mkRat 25 2, ((2 : Int) : Rat), ((0 : Nat) : Rat)] (by decide)
    (by decide) (by decide) (by decide) (by decide) (by decide) (by decide) (by decide)
    (by decide) (by decide) (by decide)

/-- C7: two runs of the handler on identical payloads, after any two
histories of earlier requests against the same loaded artifacts, give
identical outputs; the server state after any history is the startup
state, so no hidden state influences the result. -/
theorem spec_c7 (A : Artifacts) (ps1 ps2 : List Payload) (data : Payload) :
    (runServer A ps1).2 = A ∧
    predict_level (runServer A ps1).2 data = predict_level (runServer A ps2).2 data := by
  refine ⟨runServer_state A ps1, ?_⟩
  rw [runServer_state A ps1, runServer_state A ps2]

/-- C8: if any of the three artifacts fails to load at startup, the
process serves no request at all; startup succeeds exactly when all
three loads succeed; and after a successful startup every request gets
an answer, so the artifact load is the only process-fatal step. -/
theorem spec_c8 (F : ArtifactFiles) :
    ((∃ m, F.model_file = Except.error m) ∨ (∃ m, F.topic_file = Except.error m) ∨
        (∃ m, F.level_file = Except.error m) →
      ∀ reqs, ∃ m, serve F reqs = Except.error m) ∧
    ((∃ A, startup F = Except.ok A) ↔
      (F.model_file.isOk = true ∧ F.topic_file.isOk = true ∧ F.level_file.isOk = true)) ∧
    (∀ A, startup F = Except.ok A →
      ∀ reqs, serve F reqs = Except.ok (reqs.map (predict_level A))) := by
  obtain ⟨mf, tf, lf⟩ := F
  cases mf <;> cases tf <;> cases lf <;>
    simp [serve, startup, Except.isOk, Except.toBool]

/-- Witness for C8: with a failed model load next to two good encoder
loads, no request list is ever answered. -/
theorem spec_c8_witness :
    ∃ m, serve failFiles [demoPayload] = Except.error m :=
  (spec_c8 failFiles).1 (Or.inl ⟨"could not load coa_model.pkl", rfl⟩) [demoPayload]

/-- C3: a payload missing any one of the four required keys gets a 400,
and when the other fields are present and coerce (so evaluation reaches
the read of the missing key), the error detail mentions that key. -/
theorem spec_c3 (A : Artifacts) (data : Payload) (k : String)
    (hk : k ∈ requiredKeys) (hmiss : hasKey data k = false) :
    (∃ d, predict_level A data = Response.err 400 d ∧
      (predict_level A data).status = 400) ∧
    (othersPresentOk data k →
      ∃ d, predict_level A data = Response.err 400 d ∧ strOccursIn k d = true) := by
  have hget := dataGet_missing data k hmiss
  constructor
  · refine predict_err_of_no_ok A data ?_
    intro b hb
    obtain ⟨l, hl, _⟩ := predict_level_ok_inv A data b hb
    obtain ⟨row, hrow⟩ := runPredict_ok_inv A data l hl
    obtain ⟨v, hv⟩ := assemble_ok_key A.topic_classes data row hrow k hk
    rw [hget] at hv
    exact absurd hv (by simp)
  · intro hothers
    obtain ⟨ht, ha, hm, hn⟩ := hothers
    simp [requiredKeys] at hk
    rcases hk with rfl | rfl | rfl | rfl
    · have hrun : runPredict A data = Except.error (PyErr.keyError "topic") := by
        simp [runPredict, assembleFeatures, hget]
      exact ⟨_, predict_level_of_run_error A data _ hrun, by decide⟩
    · obtain ⟨vtop, hvtop⟩ := ht (by decide)
      have hacc : getFloat data "accuracy_percent" =
          Except.error (PyErr.keyError "accuracy_percent") := by
        simp [getFloat, hget]
      have hrun : runPredict A data =
          Except.error (PyErr.keyError "accuracy_percent") := by
        simp [runPredict, assembleFeatures, hvtop, hacc]
      exact ⟨_, predict_level_of_run_error A data _ hrun, by decide⟩
    · obtain ⟨vtop, hvtop⟩ := ht (by decide)
      obtain ⟨qa, hqa⟩ := ha (by decide)
      have htime : getFloat data "avg_time_seconds" =
          Except.error (PyErr.keyError "avg_time_seconds") := by
        simp [getFloat, hget]
      have hrun : runPredict A data =
          Except.error (PyErr.keyError "avg_time_seconds") := by
        simp [runPredict, assembleFeatures, hvtop, hqa, htime]
      exact ⟨_, predict_level_of_run_error A data _ hrun, by decide⟩
    · obtain ⟨vtop, hvtop⟩ := ht (by decide)
      obtain ⟨qa, hqa⟩ := ha (by decide)
      obtain ⟨qt, hqt⟩ := hm (by decide)
      have hat : getInt data "attempts" = Except.error (PyErr.keyError "attempts") := by
        simp [getInt, hget]
      have hrun : runPredict A data = Except.error (PyErr.keyError "attempts") := by
        simp [runPredict, assembleFeatures, hvtop, hqa, hqt, hat]
      exact ⟨_, predict_level_of_run_error A data _ hrun, by decide⟩

/-- Witness for C3: scenario 2, the demo payload with `attempts` absent,
gives a 400 whose detail mentions the missing key. -/
theorem spec_c3_witness :
    ∃ d, predict_level demoArtifacts missingAttempts = Response.err 400 d ∧
      strOccursIn "attempts" d = true :=
  (spec_c3 demoArtifacts missingAttempts "attempts" (by decide) (by decide)).2
    ⟨fun _ => ⟨JVal.vStr "algebra", by decide⟩,
     fun _ => ⟨((85 : Int) : Rat), by decide⟩,
     fun _ => ⟨mkRat 25 2, by decide⟩,
     fun h => absurd rfl h⟩

/-- C4: a payload whose accuracy_percent or avg_time_seconds is present
but does not parse as a float, or whose attempts is present but does not
parse as an integer, gets a 400. -/
theorem spec_c4 (A : Artifacts) (data : Payload)
    (h : (∃ v e, dataGet data "accuracy_percent" = Except.ok v ∧
            pyFloat v = Except.error e) ∨
         (∃ v e, dataGet data "avg_time_seconds" = Except.ok v ∧
            pyFloat v = Except.error e) ∨
         (∃ v e, dataGet data "attempts" = Except.ok v ∧
            pyInt v = Except.error e)) :
    ∃ d, predict_level A data = Response.err 400 d ∧
      (predict_level A data).status = 400 := by
  refine predict_err_of_no_ok A data ?_
  intro b hb
  obtain ⟨l, hl, _⟩ := predict_level_ok_inv A data b hb
  obtain ⟨row, hrow⟩ := runPredict_ok_inv A data l hl
  obtain ⟨s, qa, qt, n, h1, h2, h3, h5, h7, _⟩ := assembleFeatures_ok_inv _ _ _ hrow
  rcases h with ⟨v, e, hv, he⟩ | ⟨v, e, hv, he⟩ | ⟨v, e, hv, he⟩
  · obtain ⟨va, hva, hpa⟩ := getFloat_ok_inv _ _ _ h3
    have hveq := hva.symm.trans hv
    injection hveq with hveq
    subst hveq
    exact absurd (hpa.symm.trans he) (by simp)
  · obtain ⟨vt, hvt, hpt⟩ := getFloat_ok_inv _ _ _ h5
    have hveq := hvt.symm.trans hv
    injection hveq with hveq
    subst hveq
    exact absurd (hpt.symm.trans he) (by simp)
  · obtain ⟨vn, hvn, hpn⟩ := getInt_ok_inv _ _ _ h7
    have hveq := hvn.symm.trans hv
    injection hveq with hveq
    subst hveq
    exact absurd (hpn.symm.trans he) (by simp)

/-- Witness for C4: scenario 4, accuracy_percent = "not-a-number". -/
theorem spec_c4_witness :
    ∃ d, predict_level demoArtifacts badAccuracy = Response.err 400 d ∧
      (predict_level demoArtifacts badAccuracy).status = 400 :=
  spec_c4 demoArtifacts badAccuracy
    (Or.inl ⟨JVal.vStr "not-a-number",
      PyErr.valueError
        ("could not convert string to float: " ++ quoteStr ++ "not-a-number" ++ quoteStr),
      by decide, by decide⟩)

/-- C5: a payload whose topic is a string outside the TopicEncoder
vocabulary gets a 400. -/
theorem spec_c5 (A : Artifacts) (data : Payload) (s : String)
    (h1 : dataGet data "topic" = Except.ok (JVal.vStr s))
    (h2 : s ∉ A.topic_classes) :
    ∃ d, predict_level A data = Response.err 400 d ∧
      (predict_level A data).status = 400 := by
  refine predict_err_of_no_ok A data ?_
  intro b hb
  obtain ⟨l, hl, _⟩ := predict_level_ok_inv A data b hb
  obtain ⟨row, hrow⟩ := runPredict_ok_inv A data l hl
  obtain ⟨s2, qa, qt, n, hts, hmem, _, _, _, _⟩ := assembleFeatures_ok_inv _ _ _ hrow
  have hseq := h1.symm.trans hts
  injection hseq with hseq
  injection hseq with hseq
  subst hseq
  exact h2 hmem

/-- Witness for C5: scenario 3, the untrained topic "quantum_foo". -/
theorem spec_c5_witness :
    ∃ d, predict_level demoArtifacts unknownTopic = Response.err 400 d ∧
      (predict_level demoArtifacts unknownTopic).status = 400 :=
  spec_c5 demoArtifacts unknownTopic "quantum_foo" (by decide) (by decide)

/-- C9: numeric strings are accepted — "85" coerces as a float and "2"
as an integer — and, on a payload whose other fields are fine, the
handler succeeds exactly when the float/int conversions of the three
numeric fields succeed, i.e. it rejects a present value with a 400 if
and only if its conversion raises. -/
theorem spec_c9 (A : Artifacts) (data : Payload) (s : String) (va vt vn : JVal)
    (h1 : dataGet data "topic" = Except.ok (JVal.vStr s)) (h2 : s ∈ A.topic_classes)
    (h3 : dataGet data "accuracy_percent" = Except.ok va)
    (h5 : dataGet data "avg_time_seconds" = Except.ok vt)
    (h7 : dataGet data "attempts" = Except.ok vn)
    (hrange : ∀ row, 0 ≤ A.modelRow row ∧
      (A.modelRow row).toNat < A.level_classes.length) :
    pyFloat (JVal.vStr "85") = Except.ok 85 ∧
    pyInt (JVal.vStr "2") = Except.ok 2 ∧
    ((∃ b, predict_level A data = Response.ok b) ↔
      ((pyFloat va).isOk = true ∧ (pyFloat vt).isOk = true ∧ (pyInt vn).isOk = true)) := by
  refine ⟨by decide, by decide, ?_, ?_⟩
  · rintro ⟨b, hb⟩
    obtain ⟨l, hl, _⟩ := predict_level_ok_inv A data b hb
    obtain ⟨row, hrow⟩ := runPredict_ok_inv A data l hl
    obtain ⟨s2, qa, qt, n, hts, hmem, hga, hgt, hgn, _⟩ :=
      assembleFeatures_ok_inv _ _ _ hrow
    obtain ⟨va2, hva2, hpa⟩ := getFloat_ok_inv _ _ _ hga
    obtain ⟨vt2, hvt2, hpt⟩ := getFloat_ok_inv _ _ _ hgt
    obtain ⟨vn2, hvn2, hpn⟩ := getInt_ok_inv _ _ _ hgn
    have ha := hva2.symm.trans h3
    have hm := hvt2.symm.trans h5
    have hn := hvn2.symm.trans h7
    injection ha with ha
    injection hm with hm
    injection hn with hn
    subst ha; subst hm; subst hn
    exact ⟨(except_isOk_iff _).2 ⟨qa, hpa⟩, (except_isOk_iff _).2 ⟨qt, hpt⟩,
      (except_isOk_iff _).2 ⟨n, hpn⟩⟩
  · rintro ⟨ha, hm, hn⟩
    rw [except_isOk_iff] at ha hm hn
    obtain ⟨qa, hqa⟩ := ha
    obtain ⟨qt, hqt⟩ := hm
    obtain ⟨n, hpn⟩ := hn
    have hrow := assembleFeatures_ok_of A.topic_classes data s va vt vn qa qt n
      h1 h2 h3 hqa h5 hqt h7 hpn
    exact ⟨_, predict_level_of_run_ok A data _
      (runPredict_ok_of A data _ hrow (hrange _).1 (hrange _).2)⟩

/-- Witness for C9 on the payload with accuracy "85" and attempts "2". -/
theorem spec_c9_witness :
    pyFloat (JVal.vStr "85") = Except.ok 85 ∧
    pyInt (JVal.vStr "2") = Except.ok 2 ∧
    ((∃ b, predict_level demoArtifacts stringyPayload = Response.ok b) ↔
      ((pyFloat (JVal.vStr "85")).isOk = true ∧
        (pyFloat (JVal.vFloat (mkRat 25 2))).isOk = true ∧
        (pyInt (JVal.vStr "2")).isOk = true)) :=
  spec_c9 demoArtifacts stringyPayload "algebra" (JVal.vStr "85")
    (JVal.vFloat (mkRat 25 2)) (JVal.vStr "2") (by decide) (by decide) (by decide)
    (by decide) (by decide)
    (fun _ => ⟨by show (0 : Int) ≤ 1; decide, by show (1 : Int).toNat < 3; decide⟩)

/-- C10: a fractional float 2.9 for attempts is not rejected — int()
truncates it toward zero, the request succeeds, and the feature vector
silently carries the value 2 — while the same value written as the
string "2.9" fails int() and gets a 400. -/
theorem spec_c10 (A : Artifacts) (data1 data2 : Payload) (s : String)
    (va vt : JVal) (qa qt : Rat)
    (h1 : dataGet data1 "topic" = Except.ok (JVal.vStr s)) (h2 : s ∈ A.topic_classes)
    (h3 : dataGet data1 "accuracy_percent" = Except.ok va)
    (h4 : pyFloat va = Except.ok qa)
    (h5 : dataGet data1 "avg_time_seconds" = Except.ok vt)
    (h6 : pyFloat vt = Except.ok qt)
    (h7 : dataGet data1 "attempts" = Except.ok (JVal.vFloat (mkRat 29 10)))
    (hrange : ∀ row, 0 ≤ A.modelRow row ∧
      (A.modelRow row).toNat < A.level_classes.length)
    (h8 : dataGet data2 "attempts" = Except.ok (JVal.vStr "2.9")) :
    pyInt (JVal.vFloat (mkRat 29 10)) = Except.ok 2 ∧
    (∃ e, pyInt (JVal.vStr "2.9") = Except.error e) ∧
    assembleFeatures A.topic_classes data1 = Except.ok
      [qa, qt, ((2 : Int) : Rat),
        ((A.topic_classes.findIdx (fun c => c == s) : Nat) : Rat)] ∧
    (∃ b, predict_level A data1 = Response.ok b) ∧
    (∃ d, predict_level A data2 = Response.err 400 d ∧
      (predict_level A data2).status = 400) := by
  have htr : pyInt (JVal.vFloat (mkRat 29 10)) = Except.ok 2 := by decide
  have hrow := assembleFeatures_ok_of A.topic_classes data1 s va vt
    (JVal.vFloat (mkRat 29 10)) qa qt 2 h1 h2 h3 h4 h5 h6 h7 htr
  refine ⟨htr, ⟨_, rfl⟩, hrow,
    ⟨_, predict_level_of_run_ok A data1 _
      (runPredict_ok_of A data1 _ hrow (hrange _).1 (hrange _).2)⟩, ?_⟩
  refine predict_err_of_no_ok A data2 ?_
  intro b hb
  obtain ⟨l, hl, _⟩ := predict_level_ok_inv A data2 b hb
  obtain ⟨row2, hrow2⟩ := runPredict_ok_inv A data2 l hl
  obtain ⟨s2, qa2, qt2, n2, _, _, _, _, hgn, _⟩ := assembleFeatures_ok_inv _ _ _ hrow2
  obtain ⟨vn2, hvn2, hpn⟩ := getInt_ok_inv _ _ _ hgn
  have hveq := hvn2.symm.trans h8
  injection hveq with hveq
  subst hveq
  exact absurd ((except_isOk_iff _).2 ⟨n2, hpn⟩) (by decide)

/-- Witness for C10 on the two concrete payloads with attempts 2.9 and
attempts "2.9". -/
theorem spec_c10_witness :
    pyInt (JVal.vFloat (mkRat 29 10)) = Except.ok 2 ∧
    (∃ e, pyInt (JVal.vStr "2.9") = Except.error e) ∧
    assembleFeatures demoArtifacts.topic_classes fracAttempts = Except.ok
      [((85 : Int) : Rat), mkRat 25 2, ((2 : Int) : Rat),
        ((demoArtifacts.topic_classes.findIdx (fun c => c == "algebra") : Nat) : Rat)] ∧
    (∃ b, predict_level demoArtifacts fracAttempts = Response.ok b) ∧
    (∃ d, predict_level demoArtifacts strFracAttempts = Response.err 400 d ∧
      (predict_level demoArtifacts strFracAttempts).status = 400) :=
  spec_c10 demoArtifacts fracAttempts strFracAttempts "algebra" (JVal.vInt 85)
    (JVal.vFloat (mkRat 25 2)) ((85 : Int) : Rat) (mkRat 25 2) (by decide) (by decide)
    (by decide) (by decide) (by decide) (by decide) (by decide)
    (fun _ => ⟨by show (0 : Int) ≤ 1; decide, by show (1 : Int).toNat < 3; decide⟩)
    (by decide)
